import Mathlib

/-!
Verification of the dshield_dev repository: a shallow embedding of the
DShield connector library (src/dshield_lib.py), the legacy connector and
operations modules (src/connector.py, src/operations.py), the standalone
operations module (src/scripts/standalone_operations.py) and the CLI
scripts (src/scripts/dshield_dev_*.py), together with theorems settling
the frozen claims about them.

Conventions of the embedding:
- Python dicts that flow through the code are modelled by the JVal type
  (JSON-like values); dict assignment d[k] = v is the setKey function
  (replace in place if the key is present, else append, matching Python
  insertion-order semantics), and the k in d test is lookupKey.
- The HTTP transport is an oracle, a function from request URL to
  ReqOutcome: either a transport-level exception or a response carrying a
  status code, a body text, and the result of attempting to JSON-decode
  the body (the decode itself being the external json library).
- Raised exceptions are modelled by Except String; the string is the
  message carried by the raised DShieldError or ConnectorError.
- Each operation additionally returns the list of URLs it actually
  requested, so that the no-HTTP-call parts of claims are statable.
- Messages produced by the Python runtime itself (str() of an
  AttributeError or TypeError) are modelled by named stand-in strings;
  no claim depends on their exact text, only on the fact that the
  exception is raised.
-/

/-! Python string primitives used by the source. -/

/-- ASCII whitespace stripped by Python str.strip().  Python also strips
some further Unicode spaces; no claim depends on those. -/
def isPySpace (c : Char) : Bool :=
  c == ' ' || c == '\t' || c == '\n' || c == '\r' || c == '\x0b' || c == '\x0c'

/-- Python str.strip(): remove leading and trailing whitespace. -/
def pyStrip (s : String) : String :=
  String.mk (((s.data.dropWhile isPySpace).reverse.dropWhile isPySpace).reverse)

/-- Python str.rstrip(slash): remove trailing slash characters
(dshield_lib.py line 36). -/
def rstripSlashes (s : String) : String :=
  String.mk ((s.data.reverse.dropWhile (fun c => c == '/')).reverse)

/-- Python str.strip(slash): remove slash characters from both ends
(operations.py line 10). -/
def stripSlashes (s : String) : String :=
  String.mk (((s.data.dropWhile (fun c => c == '/')).reverse.dropWhile (fun c => c == '/')).reverse)

/-- Whether the first list is an initial run of the second. -/
def startsAs : List Char → List Char → Bool
  | [], _ => true
  | _ :: _, [] => false
  | p :: ps, c :: cs => p == c && startsAs ps cs

/-- Python str.startswith. -/
def strBegins (s pat : String) : Bool := startsAs pat.data s.data

/-- Python str.endswith. -/
def strFinishes (s pat : String) : Bool := startsAs pat.data.reverse s.data.reverse

/-- Whether the first list occurs contiguously inside the second. -/
def occursIn (pat : List Char) : List Char → Bool
  | [] => startsAs pat []
  | c :: cs => startsAs pat (c :: cs) || occursIn pat cs

/-- The Python test pat in s on strings (substring containment). -/
def strHasSub (s pat : String) : Bool := occursIn pat.data s.data

/-- ASCII digit test. -/
def isAsciiDigit (c : Char) : Bool := decide ('0' ≤ c) && decide (c ≤ '9')

/-- Python str.isdigit(), restricted to ASCII digits: true iff the string
is nonempty and every character is a digit.  (Python also accepts some
Unicode digit characters; no claim depends on those.) -/
def pyIsdigit (s : String) : Bool := !s.data.isEmpty && s.data.all isAsciiDigit

/-- Python int() applied to an all-digit string. -/
def digitsToInt (s : String) : Int :=
  Int.ofNat (s.data.foldl (fun n c => n * 10 + (c.toNat - 48)) 0)

/-- Python str.lower(), ASCII case folding. -/
def pyLower (s : String) : String := String.mk (s.data.map Char.toLower)

/-! The JSON-like value model for Python data flowing through the code. -/

/-- JSON-like values: the Python data (dicts, lists, strings, numbers,
booleans, None) that the operations receive from the json decoder and
build as results. -/
inductive JVal where
  | null
  | bool (b : Bool)
  | num (n : Int)
  | str (s : String)
  | arr (xs : List JVal)
  | obj (kvs : List (String × JVal))

/-- Association lookup: the Python d.get(k) / k in d on a dict. -/
def lookupKey : List (String × JVal) → String → Option JVal
  | [], _ => none
  | (k0, v0) :: rest, k => if k0 = k then some v0 else lookupKey rest k

/-- Python dict assignment d[k] = v: replace the value in place if the key
exists, else append the new binding at the end. -/
def setKey : List (String × JVal) → String → JVal → List (String × JVal)
  | [], k, v => [(k, v)]
  | (k0, v0) :: rest, k, v =>
    if k0 = k then (k0, v) :: rest else (k0, v0) :: setKey rest k v

/-- Python truthiness of a value. -/
def JVal.truthy : JVal → Bool
  | .null => false
  | .bool b => b
  | .num n => n != 0
  | .str s => !s.data.isEmpty
  | .arr xs => !xs.isEmpty
  | .obj kvs => !kvs.isEmpty

/-- Whether the value is a dict containing the given key. -/
def hasKey (v : JVal) (k : String) : Bool :=
  match v with
  | .obj kvs => (lookupKey kvs k).isSome
  | _ => false

/-! Configuration and operation parameters. -/

/-- The configuration mapping handed to every operation: recognized keys
server_url, api_key, timeout.  An absent key is None. -/
structure Config where
  server_url : Option String
  api_key : Option String
  timeout : Int

/-- Operation parameters; only lookup_ip reads a key (ip). -/
structure Params where
  ip : Option String

/-! The HTTP transport model. -/

/-- Transport-level exceptions that requests.request can raise, with
their class hierarchy encoded by the predicates below:
requests.exceptions.SSLError and ConnectTimeout are subclasses of
requests.exceptions.ConnectionError, and ReadTimeout and ConnectTimeout
are instances of requests.exceptions.Timeout; every one of them is a
RequestException.  otherExn is any non-requests exception. -/
inductive ReqException where
  | readTimeout
  | connectTimeout
  | sslError
  | connectionError
  | requestExn (msg : String)
  | otherExn (msg : String)

/-- Instance test for requests.exceptions.Timeout. -/
def isTimeoutExn : ReqException → Bool
  | .readTimeout => true
  | .connectTimeout => true
  | _ => false

/-- Instance test for requests.exceptions.ConnectionError; SSLError and
ConnectTimeout are subclasses of it in the requests library. -/
def isConnErrExn : ReqException → Bool
  | .connectTimeout => true
  | .sslError => true
  | .connectionError => true
  | _ => false

/-- Instance test for requests.exceptions.SSLError. -/
def isSSLExn : ReqException → Bool
  | .sslError => true
  | _ => false

/-- Instance test for requests.exceptions.RequestException. -/
def isRequestExn : ReqException → Bool
  | .otherExn _ => false
  | _ => true

/-- Stand-in for Python str(e) of a transport exception; the exact text is
produced by the requests runtime and no claim depends on it. -/
def pyExnStr : ReqException → String
  | .readTimeout => "ReadTimeout"
  | .connectTimeout => "ConnectTimeout"
  | .sslError => "SSLError"
  | .connectionError => "ConnectionError"
  | .requestExn m => m
  | .otherExn m => m

/-- Outcome of one HTTP request: a raised transport exception, or a
response with its status code, body text, and the result of attempting to
JSON-decode the body (none when the body is not valid JSON). -/
inductive ReqOutcome where
  | exn (e : ReqException)
  | resp (status : Nat) (text : String) (json : Option JVal)

/-- The HTTP transport: maps each request URL to its outcome. -/
abbrev Oracle := String → ReqOutcome

/-- The status_code to message table of DShield.error_msg
(dshield_lib.py lines 57-69), with the dict.get default
Unknown error occurred for unlisted codes. -/
def statusMessage (c : Nat) : String :=
  if c = 400 then "Bad/Invalid Request - Check your parameters"
  else if c = 401 then "Invalid credentials were provided"
  else if c = 403 then "Access Denied - Insufficient permissions"
  else if c = 404 then "Resource not found"
  else if c = 429 then "Rate limit exceeded - Too many requests"
  else if c = 500 then "Internal Server Error"
  else if c = 503 then "Service Unavailable"
  else "Unknown error occurred"

/-- The except-clause chain of DShield.make_rest_call
(dshield_lib.py lines 121-135, identically standalone_operations.py lines
105-119), in source order: Timeout, then ConnectionError, then SSLError,
then RequestException, then Exception.  Because SSLError is a subclass of
ConnectionError in the requests library, the ConnectionError clause
catches SSL errors first and the SSLError clause is unreachable. -/
def transportErrorMessage (e : ReqException) : String :=
  if isTimeoutExn e then "The request timed out while trying to connect to the remote server"
  else if isConnErrExn e then "Failed to connect to the server"
  else if isSSLExn e then "SSL certificate validation failed"
  else if isRequestExn e then "Request failed: " ++ pyExnStr e
  else "Unexpected error: " ++ pyExnStr e

/-- DShield.make_rest_call of dshield_lib.py (lines 71-135): response.ok
is status below 400; an empty body becomes a soft error dict; a body
starting with an XML marker is returned raw; otherwise the JSON decode is
returned, falling back to a raw dict; a non-ok status raises API Error;
transport exceptions raise through the except chain. -/
def makeRestCall (out : ReqOutcome) : Except String JVal :=
  match out with
  | .exn e => .error (transportErrorMessage e)
  | .resp status text json =>
    if status < 400 then
      if pyStrip text = "" then
        .ok (.obj [("error", .str "Empty response received from server"), ("raw_response", .str "")])
      else if strBegins (pyStrip text) "<?xml" || strBegins (pyStrip text) "<" then
        .ok (.obj [("raw_response", .str (pyStrip text)), ("content_type", .str "xml")])
      else
        match json with
        | some v => .ok v
        | none => .ok (.obj [("raw_response", .str (pyStrip text)), ("content_type", .str "unknown")])
    else .error ("API Error " ++ toString status ++ ": " ++ statusMessage status)

/-- make_rest_call of standalone_operations.py (lines 66-119): same as the
library variant but with no XML detection, and the raw fallback uses the
unstripped body with no content_type key. -/
def saMakeRestCall (out : ReqOutcome) : Except String JVal :=
  match out with
  | .exn e => .error (transportErrorMessage e)
  | .resp status text json =>
    if status < 400 then
      if pyStrip text = "" then
        .ok (.obj [("error", .str "Empty response received from server"), ("raw_response", .str "")])
      else
        match json with
        | some v => .ok v
        | none => .ok (.obj [("raw_response", .str text)])
    else .error ("API Error " ++ toString status ++ ": " ++ statusMessage status)

/-! Client construction. -/

/-- The URL normalization performed by DShield.__init__ on the stripped,
nonempty server_url (dshield_lib.py lines 32-38 and identically
standalone_operations.py lines 30-36): add an https scheme when no
http or https scheme is present, remove trailing slashes, and append
the api suffix when it is not already the ending. -/
def normalizeServerUrl (s : String) : String :=
  let s1 := if strBegins s "http://" || strBegins s "https://" then s else "https://" ++ s
  let s2 := rstripSlashes s1
  if strFinishes s2 "/api" then s2 else s2 ++ "/api"

/-- DShield.__init__ of dshield_lib.py (lines 26-69): fails when the
stripped server_url is empty, otherwise yields the normalized base URL.
The api_key is optional here (only headers depend on it). -/
def dshieldInit (cfg : Config) : Except String String :=
  let s := pyStrip (cfg.server_url.getD "")
  if s = "" then .error "Server URL is required"
  else .ok (normalizeServerUrl s)

/-- DShield.__init__ of standalone_operations.py (lines 24-64): as the
library variant, but additionally fails when the stripped api_key is
empty (lines 41-43). -/
def standaloneInit (cfg : Config) : Except String String :=
  let s := pyStrip (cfg.server_url.getD "")
  if s = "" then .error "Server URL is required"
  else
    let base := normalizeServerUrl s
    if pyStrip (cfg.api_key.getD "") = "" then
      .error "API key is required for DShield authentication"
    else .ok base

/-! IP address validation. -/

/-- One alternative of the octet group of the IPv4 regex of
_validate_ip_address (dshield_lib.py line 140), matched against a full
dot-free segment: 25[0-5], or 2[0-4][0-9], or [01]?[0-9][0-9]?.
A one- or two-character segment of digits always matches the third
alternative; a three-character segment matches according to the stated
leading-digit constraints; nothing longer matches. -/
def matchOctet : List Char → Bool
  | [a] => isAsciiDigit a
  | [a, b] => isAsciiDigit a && isAsciiDigit b
  | [a, b, c] =>
      (a == '2' && b == '5' && decide ('0' ≤ c) && decide (c ≤ '5'))
   || (a == '2' && decide ('0' ≤ b) && decide (b ≤ '4') && isAsciiDigit c)
   || ((a == '0' || a == '1') && isAsciiDigit b && isAsciiDigit c)
  | _ => false

/-- Split a character list at every dot, Python str.split style. -/
def splitDots : List Char → List (List Char)
  | [] => [[]]
  | c :: cs =>
    if c == '.' then [] :: splitDots cs
    else
      match splitDots cs with
      | [] => [[c]]
      | p :: ps => (c :: p) :: ps

/-- _validate_ip_address of dshield_lib.py (lines 138-141) and
standalone_operations.py (lines 122-125): the anchored regex
octet dot octet dot octet dot octet.  Since an octet never contains a
dot, the whole string matches exactly when it splits at dots into four
segments each matching the octet group. -/
def validate_ip (s : String) : Bool :=
  let parts := splitDots s.data
  parts.length == 4 && parts.all matchOctet

/-! Metadata blocks attached by the operations (dict literals from the
source, in source key order). -/

/-- The _metadata dict of lookup_ip (dshield_lib.py lines 180-184). -/
def metaQ (ip : String) : List (String × JVal) :=
  [("query_ip", .str ip), ("source", .str "DShield"), ("connector_version", .str "1.1.0")]

/-- The two-field _metadata dict shared by several operations. -/
def metaBase : List (String × JVal) :=
  [("source", .str "DShield"), ("connector_version", .str "1.1.0")]

/-- The _metadata dict of the get_threat_feeds list wrap
(dshield_lib.py lines 208-212). -/
def metaFeeds (n : Int) : List (String × JVal) :=
  [("source", .str "DShield"), ("connector_version", .str "1.1.0"), ("total_feeds", .num n)]

/-- The _metadata dict added to a plain dict daily summary
(dshield_lib.py lines 381-385). -/
def metaDailyDict : List (String × JVal) :=
  [("source", .str "DShield"), ("connector_version", .str "1.1.0"), ("endpoint", .str "dailysummary")]

/-- The _metadata dict of the daily summary list wrap
(dshield_lib.py lines 390-395). -/
def metaDailyList : List (String × JVal) :=
  [("source", .str "DShield"), ("connector_version", .str "1.1.0"),
   ("endpoint", .str "dailysummary"), ("note", .str "Data returned as list format")]

/-- The _metadata dict of the daily summary scalar wrap
(dshield_lib.py lines 401-406). -/
def metaDailyOther : List (String × JVal) :=
  [("source", .str "DShield"), ("connector_version", .str "1.1.0"),
   ("endpoint", .str "dailysummary"), ("note", .str "Data returned in unexpected format")]

/-- Attach a _metadata dict when the value is a dict, matching the
isinstance(result, dict) guard of the operations; other values are
returned unchanged. -/
def attachMetaIfObj (m : List (String × JVal)) (v : JVal) : JVal :=
  match v with
  | .obj kvs => .obj (setKey kvs "_metadata" (.obj m))
  | v2 => v2

/-- The result shaping of get_threat_feeds (dshield_lib.py lines
205-220): a list is wrapped with a total_feeds count, a dict gets
_metadata in place, anything else is passed through. -/
def feedsPost (r : JVal) : JVal :=
  match r with
  | .arr xs => .obj [("threat_feeds", .arr xs), ("_metadata", .obj (metaFeeds xs.length))]
  | r2 => attachMetaIfObj metaBase r2

/-- One endpoint call followed by a pure result shaping: the shared shape
of lookup_ip, get_threat_feeds, get_top_ports and get_top_attacking_ips
after validation and client construction.  Returns the raised-or-returned
result together with the list of URLs requested. -/
def opCall (call : String → Except String JVal) (url : String) (post : JVal → JVal) :
    Except String JVal × List String :=
  match call url with
  | .error e => (.error e, [url])
  | .ok r => (.ok (post r), [url])

/-! The five operations of dshield_lib.py (its operations registry). -/

/-- lookup_ip of dshield_lib.py (lines 161-192): strip the ip parameter,
fail when empty, fail when it does not match the IPv4 regex, then build
the client and call the ip endpoint, attaching _metadata to a dict
result. -/
def lookup_ip (o : Oracle) (cfg : Config) (p : Params) : Except String JVal × List String :=
  let ip := pyStrip (p.ip.getD "")
  if ip = "" then (.error "IP address parameter is required", [])
  else if !validate_ip ip then (.error ("Invalid IP address format: " ++ ip), [])
  else
    match dshieldInit cfg with
    | .error e => (.error e, [])
    | .ok base =>
      opCall (fun u => makeRestCall (o u)) (base ++ "/ip/" ++ ip ++ "?json") (attachMetaIfObj (metaQ ip))

/-- get_threat_feeds of dshield_lib.py (lines 195-226). -/
def get_threat_feeds (o : Oracle) (cfg : Config) (_p : Params) : Except String JVal × List String :=
  match dshieldInit cfg with
  | .error e => (.error e, [])
  | .ok base => opCall (fun u => makeRestCall (o u)) (base ++ "/threatfeeds/?json") feedsPost

/-- get_top_ports of dshield_lib.py (lines 229-251). -/
def get_top_ports (o : Oracle) (cfg : Config) (_p : Params) : Except String JVal × List String :=
  match dshieldInit cfg with
  | .error e => (.error e, [])
  | .ok base => opCall (fun u => makeRestCall (o u)) (base ++ "/topports/?json") (attachMetaIfObj metaBase)

/-- get_top_attacking_ips of dshield_lib.py (lines 422-444). -/
def get_top_attacking_ips (o : Oracle) (cfg : Config) (_p : Params) : Except String JVal × List String :=
  match dshieldInit cfg with
  | .error e => (.error e, [])
  | .ok base => opCall (fun u => makeRestCall (o u)) (base ++ "/topips/?json") (attachMetaIfObj metaBase)

/-! The daily summary operation of dshield_lib.py, with its endpoint
fallback chain and XML parsing. -/

/-- The three candidate endpoint paths of get_daily_summary
(dshield_lib.py lines 266-270), built from the computed date range. -/
def dailyEndpoints (startDate endDate : String) : List String :=
  ["/dailysummary/" ++ startDate ++ "/" ++ endDate, "/daily/?json", "/dailysummary/?json"]

/-- The fallback loop of get_daily_summary (dshield_lib.py lines
272-284).  result is assigned by each non-raising call before the
usability test, so a failing endpoint leaves its value retained; a
raising endpoint leaves the previous value; the loop breaks on the first
truthy result that is not a dict containing an error key.  Returns the
retained result and the list of URLs requested. -/
def dailyLoop (o : Oracle) (base : String) : List String → Option JVal → Option JVal × List String
  | [], acc => (acc, [])
  | ep :: rest, acc =>
    match makeRestCall (o (base ++ ep)) with
    | .error _ =>
      let r := dailyLoop o base rest acc
      (r.fst, (base ++ ep) :: r.snd)
    | .ok v =>
      if v.truthy && !hasKey v "error" then (some v, [base ++ ep])
      else
        let r := dailyLoop o base rest (some v)
        (r.fst, (base ++ ep) :: r.snd)

/-- An XML element as produced by xml.etree.ElementTree: a tag, optional
text content, and child elements. -/
inductive XmlElem where
  | node (tag : String) (text : Option String) (children : List XmlElem)

/-- Tag of an element. -/
def XmlElem.tag : XmlElem → String
  | .node t _ _ => t

/-- Text of an element; None when the element is empty. -/
def XmlElem.text : XmlElem → Option String
  | .node _ tx _ => tx

/-- Child elements. -/
def XmlElem.children : XmlElem → List XmlElem
  | .node _ _ cs => cs

/-- ElementTree findall on direct children by tag. -/
def findall (e : XmlElem) (t : String) : List XmlElem :=
  e.children.filter (fun c => c.tag == t)

/-- ElementTree find: first direct child with the tag, if any. -/
def findChild (e : XmlElem) (t : String) : Option XmlElem :=
  e.children.find? (fun c => c.tag == t)

/-- One parsed daily element: the date value and the three counters. -/
structure DailyEntry where
  date : JVal
  records : Int
  sources : Int
  targets : Int

/-- Stand-in for str() of the AttributeError that Python raises when
isdigit is read from None; the exact CPython text is a runtime detail no
claim depends on. -/
def attrErrMsg : String := "AttributeError: NoneType object has no attribute isdigit"

/-- Extraction of one numeric field of a daily element (dshield_lib.py
lines 330-338): when the child element is absent the default text equals
zero; when the child is present its text is read, and a None text makes
the subsequent isdigit attribute access raise; otherwise the text is
converted when it is all digits and defaults to 0 when not. -/
def intField (d : XmlElem) (name : String) : Except String Int :=
  match findChild d name with
  | none => .ok 0
  | some el =>
    match el.text with
    | none => .error attrErrMsg
    | some s => .ok (if pyIsdigit s then digitsToInt s else 0)

/-- Extraction of the date of a daily element (dshield_lib.py line 329):
Unknown when the child is absent; the text otherwise, which is None for
an empty element. -/
def dateField (d : XmlElem) : JVal :=
  match findChild d "date" with
  | none => .str "Unknown"
  | some el =>
    match el.text with
    | none => .null
    | some s => .str s

/-- Extraction of one daily element (dshield_lib.py lines 328-339). -/
def extractDaily (d : XmlElem) : Except String DailyEntry :=
  match intField d "records" with
  | .error e => .error e
  | .ok r =>
    match intField d "sources" with
    | .error e => .error e
    | .ok s =>
      match intField d "targets" with
      | .error e => .error e
      | .ok t => .ok ⟨dateField d, r, s, t⟩

/-- Extraction of all daily elements in document order; the first raising
element aborts the whole parse. -/
def extractAll : List XmlElem → Except String (List DailyEntry)
  | [] => .ok []
  | d :: rest =>
    match extractDaily d with
    | .error e => .error e
    | .ok entry =>
      match extractAll rest with
      | .error e => .error e
      | .ok es => .ok (entry :: es)

/-- The dict built for one daily entry (dshield_lib.py lines 334-339). -/
def entryToJVal (e : DailyEntry) : JVal :=
  .obj [("date", e.date), ("records", .num e.records), ("sources", .num e.sources), ("targets", .num e.targets)]

/-- Sum of the records field over the parsed entries
(dshield_lib.py line 342). -/
def sumRecords (es : List DailyEntry) : Int := es.foldl (fun a e => a + e.records) 0

/-- Sum of the sources field over the parsed entries
(dshield_lib.py line 343). -/
def sumSources (es : List DailyEntry) : Int := es.foldl (fun a e => a + e.sources) 0

/-- Sum of the targets field over the parsed entries
(dshield_lib.py line 344). -/
def sumTargets (es : List DailyEntry) : Int := es.foldl (fun a e => a + e.targets) 0

/-- The parsed-XML success envelope of get_daily_summary
(dshield_lib.py lines 346-362): the entry list, the three totals summed
over the entries, the date range, and the metadata block. -/
def xmlParsedResult (startDate endDate : String) (es : List DailyEntry) : JVal :=
  .obj [
    ("daily_summaries", .arr (es.map entryToJVal)),
    ("summary_totals", .obj [
      ("total_records", .num (sumRecords es)),
      ("total_sources", .num (sumSources es)),
      ("total_targets", .num (sumTargets es)),
      ("date_range", .str (startDate ++ " to " ++ endDate))]),
    ("summary_type", .str "Parsed XML"),
    ("_metadata", .obj [
      ("source", .str "DShield"),
      ("connector_version", .str "1.1.0"),
      ("endpoint", .str "dailysummary"),
      ("note", .str "Parsed XML format daily summary data"),
      ("raw_xml_available", .bool true)])]

/-- The envelope returned when XML parsing itself fails
(dshield_lib.py lines 364-377). -/
def parseFailedResult (startDate endDate content pe : String) : JVal :=
  .obj [
    ("daily_summary", .str content),
    ("summary_type", .str "Raw XML (Parse Failed)"),
    ("date_range", .str (startDate ++ " to " ++ endDate)),
    ("parse_error", .str pe),
    ("_metadata", .obj [
      ("source", .str "DShield"),
      ("connector_version", .str "1.1.0"),
      ("endpoint", .str "dailysummary"),
      ("note", .str "XML parsing failed, returning raw content")])]

/-- The soft envelope for an endpoint whose retained result carries an
Empty response error (dshield_lib.py lines 293-303). -/
def emptyRespEnvelope : JVal :=
  .obj [
    ("error", .str "Daily summary endpoint returned empty response - endpoint may be broken"),
    ("raw_response", .str ""),
    ("_metadata", .obj [
      ("source", .str "DShield"),
      ("connector_version", .str "1.1.0"),
      ("note", .str "This endpoint appears to be broken or deprecated")])]

/-- The envelope of the unreachable no-data branch
(dshield_lib.py lines 306-316). -/
def noDataEnvelope : JVal :=
  .obj [
    ("error", .str "Daily summary endpoint returned no data"),
    ("raw_response", .str ""),
    ("_metadata", .obj [
      ("source", .str "DShield"),
      ("connector_version", .str "1.1.0"),
      ("note", .str "No data available for the requested date range")])]

/-- Stand-in for str() of the TypeError raised by the in operator on a
non-iterable error value (dshield_lib.py line 293). -/
def inOpTypeErrMsg : String := "TypeError: argument is not iterable"

/-- Stand-in for str() of the TypeError raised by ET.fromstring on a
non-string raw_response value (dshield_lib.py line 325). -/
def fromstringTypeErrMsg : String := "TypeError: fromstring argument must be a string"

/-- The test isinstance(result, dict) and error in result and
Empty response in result[error] (dshield_lib.py line 293); the substring
test raises when the error value is not a string. -/
def emptyRespCheck (v : JVal) : Except String Bool :=
  match v with
  | .obj kvs =>
    match lookupKey kvs "error" with
    | none => .ok false
    | some (.str s) => .ok (strHasSub s "Empty response")
    | some _ => .error inOpTypeErrMsg
  | _ => .ok false

/-- The raw_response value of a dict result, if any
(dshield_lib.py line 319). -/
def rawResponseOf : JVal → Option JVal
  | .obj kvs => lookupKey kvs "raw_response"
  | _ => none

/-- The final shaping of a non-XML daily summary result
(dshield_lib.py lines 380-407): a dict gets _metadata in place, a list is
wrapped, any other value is wrapped as data. -/
def dailyWrap (v : JVal) : JVal :=
  match v with
  | .obj kvs => .obj (setKey kvs "_metadata" (.obj metaDailyDict))
  | .arr xs => .obj [("daily_summaries", .arr xs), ("_metadata", .obj metaDailyList)]
  | v2 => .obj [("data", v2), ("_metadata", .obj metaDailyOther)]

/-- Processing of the retained fallback result (dshield_lib.py lines
286-409): raise when nothing usable was retained; return the soft
envelope for an Empty response error; parse a raw_response as XML,
converting an element-extraction crash into the operation-level
DShieldError of the outer handler (line 419) and an ET.ParseError into
the raw-content envelope; otherwise shape the result by type.  px is the
external ET.fromstring. -/
def dailyFinish (px : String → Except String XmlElem) (startDate endDate : String) :
    Option JVal × List String → Except String JVal × List String
  | (none, log) => (.error "All daily summary endpoints failed or returned no data", log)
  | (some v, log) =>
    if !v.truthy then (.error "All daily summary endpoints failed or returned no data", log)
    else
      match emptyRespCheck v with
      | .error e => (.error ("Failed to retrieve daily summary: " ++ e), log)
      | .ok true => (.ok emptyRespEnvelope, log)
      | .ok false =>
        if !v.truthy then (.ok noDataEnvelope, log)
        else
          match rawResponseOf v with
          | some (.str content) =>
            (match px content with
             | .error pe => (.ok (parseFailedResult startDate endDate content pe), log)
             | .ok root =>
               match extractAll (findall root "daily") with
               | .error crash => (.error ("Failed to retrieve daily summary: " ++ crash), log)
               | .ok es => (.ok (xmlParsedResult startDate endDate es), log))
          | some _ => (.error ("Failed to retrieve daily summary: " ++ fromstringTypeErrMsg), log)
          | none => (.ok (dailyWrap v), log)

/-- get_daily_summary of dshield_lib.py (lines 254-419): build the
client, try the three candidate endpoints, then process the retained
result.  The date strings are the externally computed 7-day range. -/
def get_daily_summary (o : Oracle) (px : String → Except String XmlElem)
    (startDate endDate : String) (cfg : Config) : Except String JVal × List String :=
  match dshieldInit cfg with
  | .error e => (.error e, [])
  | .ok base => dailyFinish px startDate endDate (dailyLoop o base (dailyEndpoints startDate endDate) none)

/-! The standalone operations of src/scripts/standalone_operations.py
(the registry used by the three CLI scripts). -/

/-- lookup_ip of standalone_operations.py (lines 145-176): identical
validation to the library variant, but client construction additionally
requires an api_key. -/
def saLookupIp (o : Oracle) (cfg : Config) (p : Params) : Except String JVal × List String :=
  let ip := pyStrip (p.ip.getD "")
  if ip = "" then (.error "IP address parameter is required", [])
  else if !validate_ip ip then (.error ("Invalid IP address format: " ++ ip), [])
  else
    match standaloneInit cfg with
    | .error e => (.error e, [])
    | .ok base =>
      opCall (fun u => saMakeRestCall (o u)) (base ++ "/ip/" ++ ip ++ "?json") (attachMetaIfObj (metaQ ip))

/-- get_threat_feeds of standalone_operations.py (lines 179-210). -/
def saGetThreatFeeds (o : Oracle) (cfg : Config) (_p : Params) : Except String JVal × List String :=
  match standaloneInit cfg with
  | .error e => (.error e, [])
  | .ok base => opCall (fun u => saMakeRestCall (o u)) (base ++ "/threatfeeds/?json") feedsPost

/-- get_top_ports of standalone_operations.py (lines 213-235). -/
def saGetTopPorts (o : Oracle) (cfg : Config) (_p : Params) : Except String JVal × List String :=
  match standaloneInit cfg with
  | .error e => (.error e, [])
  | .ok base => opCall (fun u => saMakeRestCall (o u)) (base ++ "/topports/?json") (attachMetaIfObj metaBase)

/-- get_top_attacking_ips of standalone_operations.py (lines 300-322). -/
def saGetTopAttackingIps (o : Oracle) (cfg : Config) (_p : Params) : Except String JVal × List String :=
  match standaloneInit cfg with
  | .error e => (.error e, [])
  | .ok base => opCall (fun u => saMakeRestCall (o u)) (base ++ "/topips/?json") (attachMetaIfObj metaBase)

/-- The XML passthrough envelope of the standalone daily summary
(standalone_operations.py lines 271-281); the raw_response value is
returned verbatim. -/
def saXmlEnvelope (x : JVal) (startDate endDate : String) : JVal :=
  .obj [
    ("daily_summary", x),
    ("summary_type", .str "XML"),
    ("date_range", .str (startDate ++ " to " ++ endDate)),
    ("_metadata", .obj [
      ("source", .str "DShield"),
      ("connector_version", .str "1.1.0"),
      ("endpoint", .str "dailysummary"),
      ("note", .str "Returns XML format daily summary data")])]

/-- get_daily_summary of standalone_operations.py (lines 238-297): a
single date-range endpoint with no fallback chain and no XML parsing. -/
def saGetDailySummary (o : Oracle) (startDate endDate : String) (cfg : Config) :
    Except String JVal × List String :=
  match standaloneInit cfg with
  | .error e => (.error e, [])
  | .ok base =>
    let url := base ++ "/dailysummary/" ++ startDate ++ "/" ++ endDate
    match saMakeRestCall (o url) with
    | .error e => (.error e, [url])
    | .ok v =>
      match emptyRespCheck v with
      | .error e => (.error ("Failed to retrieve daily summary: " ++ e), [url])
      | .ok true => (.ok emptyRespEnvelope, [url])
      | .ok false =>
        match rawResponseOf v with
        | some x => (.ok (saXmlEnvelope x startDate endDate), [url])
        | none => (.ok (attachMetaIfObj metaDailyDict v), [url])

/-! The legacy modules src/operations.py and src/connector.py: the
registry actually dispatched by the Connector Adapter. -/

/-- Stand-in for str() of the AttributeError raised by
config.get(server_url).strip(slash) when the key is absent
(operations.py line 10). -/
def attrNoneStripMsg : String := "AttributeError: NoneType object has no attribute strip"

/-- DShield.__init__ of operations.py (lines 9-22): strip slashes from
both ends, append the api suffix, then prepend the https scheme when the
result does not already start with it. -/
def opsInit (cfg : Config) : Except String String :=
  match cfg.server_url with
  | none => .error attrNoneStripMsg
  | some u =>
    let b := stripSlashes u ++ "/api"
    .ok (if strBegins b "https://" then b else "https://" ++ b)

/-- Stand-in for str() of the json.loads decode error in operations.py
line 34; the exact text is a runtime detail. -/
def legacyJsonErrMsg : String := "JSONDecodeError"

/-- Stand-in for str() of the requests HTTPError raised by
raise_for_status (operations.py line 35). -/
def legacyHttpErrorStr (status : Nat) : String := toString status ++ " Error"

/-- make_rest_call of operations.py (lines 24-41): an ok response is
JSON-decoded (a decode failure propagates to the generic except clause);
a non-ok response raises through raise_for_status; ConnectionError and
its subclasses are mapped, by a slip of the source, to the timeout
message; every other exception is wrapped with its own text. -/
def legacyMakeRestCall (out : ReqOutcome) : Except String JVal :=
  match out with
  | .exn e =>
    if isConnErrExn e then .error "The request timed out while trying to connect to the remote server"
    else .error (pyExnStr e)
  | .resp status _text json =>
    if status < 400 then
      match json with
      | some v => .ok v
      | none => .error legacyJsonErrMsg
    else .error (legacyHttpErrorStr status)

/-- The type of a registered operation of the legacy registry. -/
def OpFun := Oracle → Config → Params → Except String JVal × List String

/-- Python str() of an optional string, as produced by format on a
possibly-missing dict entry: None when absent. -/
def pyFormatOpt : Option String → String
  | some s => s
  | none => "None"

/-- lookup_ip of operations.py (lines 51-54): no validation, no metadata;
the raw ip parameter is interpolated into the endpoint. -/
def legacyLookupIp : OpFun := fun o cfg p =>
  match opsInit cfg with
  | .error e => (.error e, [])
  | .ok base =>
    let url := base ++ "/ip/" ++ pyFormatOpt p.ip ++ "?json"
    (legacyMakeRestCall (o url), [url])

/-- get_threat_feeds of operations.py (lines 57-60). -/
def legacyGetThreatFeeds : OpFun := fun o cfg _ =>
  match opsInit cfg with
  | .error e => (.error e, [])
  | .ok base =>
    let url := base ++ "/threatfeeds/?json"
    (legacyMakeRestCall (o url), [url])

/-- The operations registry of operations.py (lines 62-65), the one
imported by connector.py: exactly two entries. -/
def connectorOps : List (String × OpFun) :=
  [("lookup_ip", legacyLookupIp), ("get_threat_feeds", legacyGetThreatFeeds)]

/-- Registry lookup, the Python operations.get(operation). -/
def lookupOp : List (String × OpFun) → String → Option OpFun
  | [], _ => none
  | (n, f) :: rest, k => if n = k then some f else lookupOp rest k

/-- A single-quote string, built from its code point. -/
def squot : String := String.singleton (Char.ofNat 39)

/-- Python repr of a list of strings, as produced by
format(list(operations.keys())). -/
def pyStrListRepr (names : List String) : String :=
  "[" ++ String.intercalate ", " (names.map (fun n => squot ++ n ++ squot)) ++ "]"

/-- The unknown-operation error message of DShieldConnector.execute
(connector.py line 17), enumerating the registry keys. -/
def unknownOpMsg (opName : String) : String :=
  "Operation \"" ++ opName ++ "\" not found. Available operations: " ++ pyStrListRepr (connectorOps.map Prod.fst)

/-- DShieldConnector.execute of connector.py (lines 9-34): look the name
up in the registry; when absent, raise the enumerating ConnectorError
without invoking anything; otherwise invoke the operation. -/
def connectorExecute (o : Oracle) (cfg : Config) (opName : String) (p : Params) :
    Except String JVal × List String :=
  match lookupOp connectorOps opName with
  | none => (.error (unknownOpMsg opName), [])
  | some f => f o cfg p

/-! The threat-feeds CLI script filter
(src/scripts/dshield_dev_get_threat_feeds.py). -/

/-- Truthiness of an argparse option value: given and nonempty. -/
def filterGiven : Option String → Bool
  | some s => !s.data.isEmpty
  | none => false

/-- Stand-in for str() of the AttributeError raised when lower is read
from a non-string feed field (dshield_dev_get_threat_feeds.py lines
90 and 94). -/
def lowerTypeErrMsg : String := "AttributeError: object has no attribute lower"

/-- Preparation of feed.get(field, empty).lower(): the defaulted field must
be a string or the lower attribute access raises. -/
def getStrField (kvs : List (String × JVal)) (k : String) : Except String String :=
  match lookupKey kvs k with
  | none => .ok ""
  | some (.str s) => .ok s
  | some _ => .error lowerTypeErrMsg

/-- The frequency filter step of apply_filters
(dshield_dev_get_threat_feeds.py lines 93-95). -/
def feedKeepFreq (ff : Option String) (kvs : List (String × JVal)) : Except String Bool :=
  if filterGiven ff then
    match getStrField kvs "frequency" with
    | .error e => .error e
    | .ok fr => .ok (pyLower fr == pyLower (ff.getD ""))
  else .ok true

/-- Whether one feed entry survives apply_filters
(dshield_dev_get_threat_feeds.py lines 85-97): non-dict entries are
dropped; a given type filter must match case-insensitively, then a given
frequency filter must match case-insensitively. -/
def feedKeepE (ft ff : Option String) (feed : JVal) : Except String Bool :=
  match feed with
  | .obj kvs =>
    if filterGiven ft then
      match getStrField kvs "type" with
      | .error e => .error e
      | .ok t =>
        if pyLower t == pyLower (ft.getD "") then feedKeepFreq ff kvs else .ok false
    else feedKeepFreq ff kvs
  | _ => .ok false

/-- The filtering loop of apply_filters over the feeds list. -/
def filterFeeds (ft ff : Option String) : List JVal → Except String (List JVal)
  | [] => .ok []
  | f :: rest =>
    match feedKeepE ft ff f with
    | .error e => .error e
    | .ok keep =>
      match filterFeeds ft ff rest with
      | .error e => .error e
      | .ok tail => .ok (if keep then f :: tail else tail)

/-- Stand-in for str() of the KeyError raised when the result has no
_metadata entry (dshield_dev_get_threat_feeds.py line 100). -/
def keyErrMetaMsg : String := "KeyError: _metadata"

/-- Stand-in for str() of the TypeError raised when the _metadata value
does not support string-keyed assignment. -/
def metaSubscriptErrMsg : String := "TypeError: _metadata does not support item assignment"

/-- apply_filters of dshield_dev_get_threat_feeds.py (lines 75-102):
pass non-dict results and results without a threat_feeds list through
unchanged; otherwise filter the list, store it back, and overwrite
_metadata.total_feeds with the post-filter count. -/
def applyFilters (ft ff : Option String) (result : JVal) : Except String JVal :=
  match result with
  | .obj kvs =>
    match lookupKey kvs "threat_feeds" with
    | some (.arr feeds) =>
      (match filterFeeds ft ff feeds with
       | .error e => .error e
       | .ok filtered =>
         let kvs1 := setKey kvs "threat_feeds" (.arr filtered)
         match lookupKey kvs1 "_metadata" with
         | some (.obj m) => .ok (.obj (setKey kvs1 "_metadata" (.obj (setKey m "total_feeds" (.num filtered.length)))))
         | some _ => .error metaSubscriptErrMsg
         | none => .error keyErrMetaMsg)
    | some _ => .ok result
    | none => .ok result
  | _ => .ok result

/-- The configuration dict built by all three CLI scripts
(dshield_dev_lookup_ip.py lines 30-33, dshield_dev_get_threat_feeds.py
lines 31-34, dshield_dev_operations.py lines 38-41): only server_url and
timeout, never an api_key. -/
def scriptConfig (serverUrl : String) (timeout : Int) : Config :=
  { server_url := some serverUrl, api_key := none, timeout := timeout }

/-- The exit code produced by the scripts around an operation result:
every raised error is printed and turned into exit code 1, success into
0 (the try/except main body shared by the scripts). -/
def scriptExitCode (r : Except String JVal) : Nat :=
  match r with
  | .error _ => 1
  | .ok _ => 0

/-! Spec-side definitions: statements of claim properties in the words
of the spec, to be compared with the source-derived definitions above. -/

/-- The server URL normalization in the words of the spec: prepend the
https scheme if no scheme is given, strip trailing slashes, append the
api suffix if the result does not already end with it. -/
def specNormalizeUrl (u : String) : String :=
  let s1 := if strBegins u "http://" || strBegins u "https://" then u else "https://" ++ u
  let s2 := rstripSlashes s1
  if strFinishes s2 "/api" then s2 else s2 ++ "/api"

/-- The per-field daily extraction in the words of the claim: the field
becomes 0 whenever the child element is absent or its text is not all
digits (including a missing text). -/
def specFieldVal (d : XmlElem) (name : String) : Int :=
  match findChild d name with
  | none => 0
  | some el =>
    match el.text with
    | none => 0
    | some s => if pyIsdigit s then digitsToInt s else 0

/-- The daily-element extraction in the words of the claim. -/
def specExtractDaily (d : XmlElem) : DailyEntry :=
  ⟨dateField d, specFieldVal d "records", specFieldVal d "sources", specFieldVal d "targets"⟩

/-- The defaulted string field of a feed entry, total form. -/
def getStrD (kvs : List (String × JVal)) (k : String) : String :=
  match lookupKey kvs k with
  | some (.str s) => s
  | _ => ""

/-- Which feed entries the claim says the filter keeps: dict entries
whose type field (when the type filter is given) and frequency field
(when the frequency filter is given) match case-insensitively. -/
def specKeep (ft ff : Option String) (feed : JVal) : Bool :=
  match feed with
  | .obj kvs =>
      (if filterGiven ft then pyLower (getStrD kvs "type") == pyLower (ft.getD "") else true)
   && (if filterGiven ff then pyLower (getStrD kvs "frequency") == pyLower (ff.getD "") else true)
  | _ => false

/-- Safety of one numeric field of a daily element: the child, when
present, has a text (the configuration under which the source extraction
does not raise). -/
def fieldSafe (d : XmlElem) (name : String) : Bool :=
  match findChild d name with
  | none => true
  | some el => el.text.isSome

/-- Safety of a whole parsed document for the source extraction. -/
def dailySafe (root : XmlElem) : Bool :=
  (findall root "daily").all (fun d => fieldSafe d "records" && fieldSafe d "sources" && fieldSafe d "targets")

/-- Whether a feed field is absent or a string (the configuration under
which the lower() call of the filter does not raise). -/
def strFieldOk (kvs : List (String × JVal)) (k : String) : Bool :=
  match lookupKey kvs k with
  | none => true
  | some (.str _) => true
  | some _ => false

/-- Filter safety of one feed entry. -/
def feedFieldsOk : JVal → Bool
  | .obj kvs => strFieldOk kvs "type" && strFieldOk kvs "frequency"
  | _ => true

/-- Filter safety of a feeds list. -/
def feedsOk (feeds : List JVal) : Bool := feeds.all feedFieldsOk

/-- Whether a string option holds the given string. -/
def isStrVal (v : Option JVal) (s : String) : Bool :=
  match v with
  | some (.str t) => t == s
  | _ => false

/-- The metadata fields the claims require: source DShield and
connector_version 1.1.0. -/
def metaFieldsOk (m : List (String × JVal)) : Bool :=
  match lookupKey m "_metadata" with
  | some (.obj inner) =>
    isStrVal (lookupKey inner "source") "DShield" && isStrVal (lookupKey inner "connector_version") "1.1.0"
  | _ => false

/-- The result-envelope invariant of the claims: whenever the value is a
mapping, it carries a _metadata entry with source DShield and
connector_version 1.1.0; non-mappings satisfy it vacuously. -/
def metaOk : JVal → Bool
  | .obj kvs => metaFieldsOk kvs
  | _ => true

/-! Helper lemmas about the dict model. -/

theorem lookupKey_setKey_self (l : List (String × JVal)) (k : String) (v : JVal) :
    lookupKey (setKey l k v) k = some v := by
  induction l with
  | nil => simp [setKey, lookupKey]
  | cons hd t ih =>
    obtain ⟨k0, v0⟩ := hd
    by_cases hk : k0 = k
    · simp [setKey, hk, lookupKey]
    · simp [setKey, hk, lookupKey, ih]

theorem lookupKey_setKey_ne (l : List (String × JVal)) (k k' : String) (v : JVal)
    (h : k' ≠ k) : lookupKey (setKey l k v) k' = lookupKey l k' := by
  induction l with
  | nil => simp [setKey, lookupKey, Ne.symm h]
  | cons hd t ih =>
    obtain ⟨k0, v0⟩ := hd
    by_cases hk : k0 = k
    · subst hk
      simp [setKey, lookupKey, Ne.symm h]
    · simp [setKey, hk, lookupKey, ih]

theorem metaOk_attachMetaIfObj (m : List (String × JVal))
    (hs : isStrVal (lookupKey m "source") "DShield" = true)
    (hv : isStrVal (lookupKey m "connector_version") "1.1.0" = true) :
    ∀ v, metaOk (attachMetaIfObj m v) = true := by
  intro v
  cases v with
  | obj kvs => simp [attachMetaIfObj, metaOk, metaFieldsOk, lookupKey_setKey_self, hs, hv]
  | null => rfl
  | bool b => rfl
  | num n => rfl
  | str s => rfl
  | arr xs => rfl

theorem metaOk_feedsPost : ∀ r, metaOk (feedsPost r) = true := by
  intro r
  cases r with
  | arr xs => rfl
  | obj kvs =>
    have hb : feedsPost (JVal.obj kvs) = attachMetaIfObj metaBase (JVal.obj kvs) := rfl
    rw [hb]
    exact metaOk_attachMetaIfObj metaBase rfl rfl _
  | null => rfl
  | bool b => rfl
  | num n => rfl
  | str s => rfl

theorem metaOk_dailyWrap : ∀ r, metaOk (dailyWrap r) = true := by
  intro r
  cases r with
  | obj kvs => exact metaOk_attachMetaIfObj metaDailyDict rfl rfl (.obj kvs)
  | arr xs => rfl
  | null => rfl
  | bool b => rfl
  | num n => rfl
  | str s => rfl

theorem opCall_ok_metaOk (call : String → Except String JVal) (url : String)
    (post : JVal → JVal) (hpost : ∀ r, metaOk (post r) = true) (v : JVal) (log : List String)
    (h : opCall call url post = (.ok v, log)) : metaOk v = true := by
  unfold opCall at h
  split at h
  · simp at h
  · rename_i r heq
    have hv : post r = v := by
      have := congrArg Prod.fst h
      simpa using this
    rw [← hv]
    exact hpost r

/-! Helper lemmas about string suffixes and substrings. -/

theorem startsAs_append_self (l m : List Char) : startsAs l (l ++ m) = true := by
  induction l with
  | nil => rfl
  | cons c cs ih => simp [startsAs, ih]

theorem strFinishes_append_self (s pat : String) : strFinishes (s ++ pat) pat = true := by
  unfold strFinishes
  rw [String.data_append, List.reverse_append]
  exact startsAs_append_self _ _

theorem occursIn_append_right (pat xs ys : List Char) (h : occursIn pat ys = true) :
    occursIn pat (xs ++ ys) = true := by
  induction xs with
  | nil => simpa using h
  | cons c cs ih => simp [occursIn, ih]

theorem strHasSub_append_right (a b pat : String) (h : strHasSub b pat = true) :
    strHasSub (a ++ b) pat = true := by
  unfold strHasSub at h ⊢
  rw [String.data_append]
  exact occursIn_append_right _ _ _ h

/-! Helper lemmas about the XML extraction. -/

theorem intField_safe (d : XmlElem) (name : String) (h : fieldSafe d name = true) :
    intField d name = .ok (specFieldVal d name) := by
  unfold fieldSafe at h
  unfold intField specFieldVal
  cases hf : findChild d name with
  | none => simp
  | some el =>
    have h2 : el.text.isSome = true := by
      rw [hf] at h
      simpa using h
    cases ht : el.text with
    | none => rw [ht] at h2; simp at h2
    | some s => simp [ht]

theorem extractAll_safe (ds : List XmlElem)
    (h : ds.all (fun d => fieldSafe d "records" && fieldSafe d "sources" && fieldSafe d "targets") = true) :
    extractAll ds = .ok (ds.map specExtractDaily) := by
  induction ds with
  | nil => rfl
  | cons d rest ih =>
    simp only [List.all_cons, Bool.and_eq_true] at h
    obtain ⟨⟨⟨h1, h2⟩, h3⟩, hrest⟩ := h
    have hr := ih (by simpa using hrest)
    simp [extractAll, extractDaily, intField_safe _ _ h1, intField_safe _ _ h2,
          intField_safe _ _ h3, hr, specExtractDaily]

/-! Helper lemma about the fallback loop. -/

theorem dailyLoop_allError (o : Oracle) (base : String) (eps : List String) (acc : Option JVal)
    (h : ∀ ep ∈ eps, ∃ m, makeRestCall (o (base ++ ep)) = .error m) :
    dailyLoop o base eps acc = (acc, eps.map (fun ep => base ++ ep)) := by
  induction eps generalizing acc with
  | nil => rfl
  | cons ep rest ih =>
    obtain ⟨m, hm⟩ := h ep (by simp)
    have hrest : ∀ e ∈ rest, ∃ m2, makeRestCall (o (base ++ e)) = .error m2 :=
      fun e he => h e (by simp [he])
    simp [dailyLoop, hm, ih acc hrest]

/-! Helper lemmas about the CLI feed filter. -/

theorem getStrField_ok (kvs : List (String × JVal)) (k : String) (h : strFieldOk kvs k = true) :
    getStrField kvs k = .ok (getStrD kvs k) := by
  unfold strFieldOk at h
  unfold getStrField getStrD
  cases hl : lookupKey kvs k with
  | none => simp
  | some v =>
    rw [hl] at h
    cases v <;> simp_all

theorem feedKeepFreq_ok (ff : Option String) (kvs : List (String × JVal))
    (h : strFieldOk kvs "frequency" = true) :
    feedKeepFreq ff kvs =
      .ok (if filterGiven ff then pyLower (getStrD kvs "frequency") == pyLower (ff.getD "") else true) := by
  unfold feedKeepFreq
  rw [getStrField_ok _ _ h]
  by_cases hg : filterGiven ff = true
  · simp [hg]
  · simp only [Bool.not_eq_true] at hg
    simp [hg]

theorem feedKeepE_ok (ft ff : Option String) (feed : JVal) (h : feedFieldsOk feed = true) :
    feedKeepE ft ff feed = .ok (specKeep ft ff feed) := by
  cases feed with
  | obj kvs =>
    unfold feedFieldsOk at h
    simp only [Bool.and_eq_true] at h
    obtain ⟨h1, h2⟩ := h
    have e1 : feedKeepE ft ff (JVal.obj kvs) =
        (if filterGiven ft then
          match getStrField kvs "type" with
          | .error e => .error e
          | .ok t => if pyLower t == pyLower (ft.getD "") then feedKeepFreq ff kvs else .ok false
        else feedKeepFreq ff kvs) := rfl
    have e2 : specKeep ft ff (JVal.obj kvs) =
        ((if filterGiven ft then pyLower (getStrD kvs "type") == pyLower (ft.getD "") else true)
         && (if filterGiven ff then pyLower (getStrD kvs "frequency") == pyLower (ff.getD "") else true)) := rfl
    rw [e1, e2, getStrField_ok _ _ h1, feedKeepFreq_ok ff kvs h2]
    by_cases hg : filterGiven ft = true
    · simp only [hg, if_true]
      by_cases hm : (pyLower (getStrD kvs "type") == pyLower (ft.getD "")) = true
      · simp [hm]
      · simp only [Bool.not_eq_true] at hm
        simp [hm]
    · simp only [Bool.not_eq_true] at hg
      simp [hg]
  | null => rfl
  | bool b => rfl
  | num n => rfl
  | str s => rfl
  | arr xs => rfl

theorem filterFeeds_ok (ft ff : Option String) (feeds : List JVal) (h : feedsOk feeds = true) :
    filterFeeds ft ff feeds = .ok (feeds.filter (specKeep ft ff)) := by
  induction feeds with
  | nil => rfl
  | cons f rest ih =>
    unfold feedsOk at h
    simp only [List.all_cons, Bool.and_eq_true] at h
    obtain ⟨h1, h2⟩ := h
    have hr := ih (by simpa [feedsOk] using h2)
    simp only [filterFeeds, feedKeepE_ok ft ff f h1, hr, List.filter_cons]

/-! Helper lemma about the standalone client under the script config. -/

theorem standaloneInit_script (u : String) (t : Int) (h : pyStrip u ≠ "") :
    standaloneInit (scriptConfig u t) = .error "API key is required for DShield authentication" := by
  have he : pyStrip "" = "" := rfl
  unfold standaloneInit scriptConfig
  simp [h, he]

theorem strFinishes_ite_append (s2 : String) :
    strFinishes (if strFinishes s2 "/api" = true then s2 else s2 ++ "/api") "/api" = true := by
  by_cases hf : strFinishes s2 "/api" = true
  · simp [hf]
  · simp only [Bool.not_eq_true] at hf
    simp [hf, strFinishes_append_self]

theorem strFinishes_normalize (s : String) :
    strFinishes (normalizeServerUrl s) "/api" = true := by
  simp only [normalizeServerUrl]
  exact strFinishes_ite_append _

/-! Claim theorems. -/

/-- C2: for every server_url accepted by client construction, the base
URL equals the spec-described normalization of the stripped input
(prepend https when no http or https scheme is present, strip trailing
slashes, append the api suffix only when not already the ending), and the
base URL always ends in the api suffix with no trailing slash. -/
theorem c2_url_normalization (cfg : Config) (base : String)
    (h : dshieldInit cfg = .ok base) :
    base = specNormalizeUrl (pyStrip (cfg.server_url.getD "")) ∧ strFinishes base "/api" = true := by
  unfold dshieldInit at h
  by_cases he : pyStrip (cfg.server_url.getD "") = ""
  · simp [he] at h
  · simp only [he, if_false] at h
    have hb : normalizeServerUrl (pyStrip (cfg.server_url.getD "")) = base := by
      simpa using h
    constructor
    · exact hb.symm
    · rw [← hb]
      exact strFinishes_normalize _

/-- Witness for C2: the host dshield.org normalizes to the api base URL,
and a URL already ending in the api segment with a trailing slash
normalizes to the same base with no duplicate segment. -/
theorem c2_url_normalization_witness :
    dshieldInit ⟨some "dshield.org", none, 30⟩ = .ok "https://dshield.org/api"
    ∧ ("https://dshield.org/api" = specNormalizeUrl (pyStrip "dshield.org")
       ∧ strFinishes "https://dshield.org/api" "/api" = true)
    ∧ dshieldInit ⟨some "https://dshield.org/api/", none, 30⟩ = .ok "https://dshield.org/api" :=
  ⟨rfl, c2_url_normalization ⟨some "dshield.org", none, 30⟩ "https://dshield.org/api" rfl, rfl⟩

/-- C3: lookup_ip first strips the ip parameter; an empty result fails
with the required-parameter message and a non-matching result fails with
the invalid-format message naming the stripped ip, in both cases with no
HTTP request issued (empty request log). -/
theorem c3_lookup_ip_validation (o : Oracle) (cfg : Config) (p : Params) :
    (pyStrip (p.ip.getD "") = "" →
      lookup_ip o cfg p = (.error "IP address parameter is required", []))
    ∧ (pyStrip (p.ip.getD "") ≠ "" → validate_ip (pyStrip (p.ip.getD "")) = false →
      lookup_ip o cfg p = (.error ("Invalid IP address format: " ++ pyStrip (p.ip.getD "")), [])) := by
  constructor
  · intro h
    simp [lookup_ip, h]
  · intro h1 h2
    simp [lookup_ip, h1, h2]

/-- Witness for C3: the out-of-range address 999.1.1.1 fails with the
invalid-format message and a whitespace ip fails with the
required-parameter message, neither issuing an HTTP request. -/
theorem c3_lookup_ip_validation_witness :
    lookup_ip (fun _ => .exn .connectionError) ⟨some "dshield.org", none, 30⟩ ⟨some "999.1.1.1"⟩
      = (.error ("Invalid IP address format: " ++ pyStrip "999.1.1.1"), [])
    ∧ lookup_ip (fun _ => .exn .connectionError) ⟨some "dshield.org", none, 30⟩ ⟨some "   "⟩
      = (.error "IP address parameter is required", []) :=
  ⟨(c3_lookup_ip_validation (fun _ => .exn .connectionError) ⟨some "dshield.org", none, 30⟩
      ⟨some "999.1.1.1"⟩).2 (by decide) (by decide),
   (c3_lookup_ip_validation (fun _ => .exn .connectionError) ⟨some "dshield.org", none, 30⟩
      ⟨some "   "⟩).1 (by decide)⟩

/-- C7: every non-success HTTP status (400 and above, the negation of
response.ok) raises exactly the message API Error code colon message,
where the message comes from the status table and defaults to Unknown
error occurred for every code outside the table. -/
theorem c7_http_status_errors (status : Nat) (text : String) (json : Option JVal)
    (h : 400 ≤ status) :
    makeRestCall (.resp status text json)
      = .error ("API Error " ++ toString status ++ ": " ++ statusMessage status)
    ∧ (status ∉ ([400, 401, 403, 404, 429, 500, 503] : List Nat) →
        statusMessage status = "Unknown error occurred") := by
  constructor
  · have hn : ¬ status < 400 := by omega
    simp [makeRestCall, hn]
  · intro hm
    unfold statusMessage
    split_ifs with a b c d e f g
    · exact absurd (by simp [a]) hm
    · exact absurd (by simp [b]) hm
    · exact absurd (by simp [c]) hm
    · exact absurd (by simp [d]) hm
    · exact absurd (by simp [e]) hm
    · exact absurd (by simp [f]) hm
    · exact absurd (by simp [g]) hm
    · rfl

/-- Witness for C7: a 404 response yields exactly API Error 404 with the
Resource not found table message, and an unlisted code such as 418 falls
back to Unknown error occurred. -/
theorem c7_http_status_errors_witness :
    makeRestCall (.resp 404 "x" none) = .error "API Error 404: Resource not found"
    ∧ statusMessage 418 = "Unknown error occurred" :=
  ⟨(c7_http_status_errors 404 "x" none (by decide)).1,
   (c7_http_status_errors 418 "" none (by decide)).2 (by decide)⟩

/-- C8: because the except ConnectionError clause precedes the except
SSLError clause and SSLError subclasses ConnectionError in the requests
library, a TLS certificate failure raises the connection-failure message
Failed to connect to the server rather than the SSL message; the timeout
and plain connection-failure messages are as the claim states.  This
contradicts the unreachable SSLError handler of the source, whose intent
is the SSL certificate validation failed message. -/
theorem c8_ssl_clause_shadowed :
    makeRestCall (.exn .sslError) = .error "Failed to connect to the server"
    ∧ transportErrorMessage .sslError = "Failed to connect to the server"
    ∧ makeRestCall (.exn .readTimeout)
        = .error "The request timed out while trying to connect to the remote server"
    ∧ makeRestCall (.exn .connectTimeout)
        = .error "The request timed out while trying to connect to the remote server"
    ∧ makeRestCall (.exn .connectionError) = .error "Failed to connect to the server"
    ∧ saMakeRestCall (.exn .sslError) = .error "Failed to connect to the server" :=
  ⟨rfl, rfl, rfl, rfl, rfl, rfl⟩

/-- Counterexample for C6: the operation registry imported by the
Connector Adapter (operations.py lines 62-65, imported by connector.py
line 3) holds exactly the two names lookup_ip and get_threat_feeds, so it
does not contain the five names the claim asserts; in particular
get_top_ports is not registered. -/
theorem c6_counterexample :
    connectorOps.map Prod.fst = ["lookup_ip", "get_threat_feeds"]
    ∧ ¬ ("get_top_ports" ∈ connectorOps.map Prod.fst) :=
  ⟨rfl, by decide⟩

/-- C6 amended: the registry of the Connector Adapter contains exactly the two
names lookup_ip and get_threat_feeds, and for every operation name not in
the registry, execute fails with an error whose message enumerates the
available operation names, without issuing any network call (empty
request log). -/
theorem c6_registry_amended (o : Oracle) (cfg : Config) (p : Params) (name : String)
    (h1 : name ≠ "lookup_ip") (h2 : name ≠ "get_threat_feeds") :
    connectorExecute o cfg name p = (.error (unknownOpMsg name), [])
    ∧ strHasSub (unknownOpMsg name) "lookup_ip" = true
    ∧ strHasSub (unknownOpMsg name) "get_threat_feeds" = true
    ∧ connectorOps.map Prod.fst = ["lookup_ip", "get_threat_feeds"] := by
  refine ⟨?_, ?_, ?_, rfl⟩
  · simp [connectorExecute, connectorOps, lookupOp, Ne.symm h1, Ne.symm h2]
  · unfold unknownOpMsg
    apply strHasSub_append_right
    rfl
  · unfold unknownOpMsg
    apply strHasSub_append_right
    rfl

/-- Witness for C6: dispatching the unregistered name get_daily_summary
yields the enumerating error and no network call. -/
theorem c6_registry_amended_witness :
    connectorExecute (fun _ => .exn .connectionError) ⟨some "dshield.org", none, 30⟩
        "get_daily_summary" ⟨none⟩
      = (.error (unknownOpMsg "get_daily_summary"), [])
    ∧ strHasSub (unknownOpMsg "get_daily_summary") "lookup_ip" = true := by
  have h := c6_registry_amended (fun _ => .exn .connectionError) ⟨some "dshield.org", none, 30⟩
      ⟨none⟩ "get_daily_summary" (by decide) (by decide)
  exact ⟨h.1, h.2.1⟩

/-- C9: whenever a filter flag is given and the result is a mapping whose
threat_feeds value is a list (with the _metadata mapping the script flow
guarantees, and feed type and frequency fields that are strings where
present), apply_filters keeps exactly the entries matching the given
filters case-insensitively and overwrites _metadata.total_feeds with the
post-filter count, leaving all other keys unchanged. -/
theorem c9_feed_filters (ft ff : Option String) (kvs : List (String × JVal))
    (feeds : List JVal) (m : List (String × JVal))
    (hf : lookupKey kvs "threat_feeds" = some (.arr feeds))
    (hm : lookupKey kvs "_metadata" = some (.obj m))
    (hok : feedsOk feeds = true)
    (_hgiven : (filterGiven ft || filterGiven ff) = true) :
    applyFilters ft ff (.obj kvs)
      = .ok (.obj (setKey (setKey kvs "threat_feeds" (.arr (feeds.filter (specKeep ft ff))))
          "_metadata" (.obj (setKey m "total_feeds" (.num (feeds.filter (specKeep ft ff)).length))))) := by
  have hm1 : lookupKey (setKey kvs "threat_feeds" (.arr (feeds.filter (specKeep ft ff)))) "_metadata"
      = some (.obj m) := by
    rw [lookupKey_setKey_ne _ _ _ _ (by decide)]
    exact hm
  simp [applyFilters, hf, filterFeeds_ok ft ff feeds hok, hm1]

/-- The three-feed list of the example in the claim: types scan, scan,
malware. -/
def c9feeds : List JVal :=
  [.obj [("name", .str "f1"), ("type", .str "scan")],
   .obj [("name", .str "f2"), ("type", .str "scan")],
   .obj [("name", .str "f3"), ("type", .str "malware")]]

/-- A get_threat_feeds result carrying the example feeds. -/
def c9result : List (String × JVal) :=
  [("threat_feeds", .arr c9feeds), ("_metadata", .obj (metaFeeds 3))]

/-- Witness for C9: filtering the example feeds by type Scan
(case-insensitively) keeps the two scan entries and sets total_feeds to
2. -/
theorem c9_feed_filters_witness :
    applyFilters (some "Scan") none (.obj c9result)
      = .ok (.obj (setKey (setKey c9result "threat_feeds"
            (.arr (c9feeds.filter (specKeep (some "Scan") none))))
          "_metadata" (.obj (setKey (metaFeeds 3) "total_feeds"
            (.num (c9feeds.filter (specKeep (some "Scan") none)).length)))))
    ∧ (c9feeds.filter (specKeep (some "Scan") none)).length = 2
    ∧ c9feeds.filter (specKeep (some "Scan") none)
        = [.obj [("name", .str "f1"), ("type", .str "scan")],
           .obj [("name", .str "f2"), ("type", .str "scan")]] :=
  ⟨c9_feed_filters (some "Scan") none c9result c9feeds (metaFeeds 3) rfl rfl rfl rfl, rfl, rfl⟩

/-- Counterexample for C10: a standalone-script invocation whose
server_url is empty after trimming (argparse accepts an empty
--server-url) raises Server URL is required, not the API-key message the
claim asserts for every argument set passing argument parsing. -/
theorem c10_counterexample :
    saGetThreatFeeds (fun _ => .exn .connectionError) (scriptConfig "" 30) ⟨none⟩
      = (.error "Server URL is required", [])
    ∧ "Server URL is required" ≠ "API key is required for DShield authentication" :=
  ⟨rfl, by decide⟩

/-- C10 amended: the CLI scripts build a configuration with only
server_url and timeout and never an api_key; for every argument set whose
server_url is nonempty after trimming (and, for lookup_ip, whose ip
passes validation), the standalone operation raises the API-key error
before any HTTP request (empty request log) and the script exits with
code 1; an empty server_url instead raises Server URL is required, so no
standalone-script invocation can succeed either way. -/
theorem c10_standalone_scripts_amended (o : Oracle) (u : String) (t : Int) (p : Params)
    (sd ed ipArg : String) (h : pyStrip u ≠ "") :
    saGetThreatFeeds o (scriptConfig u t) p
        = (.error "API key is required for DShield authentication", [])
    ∧ saGetTopPorts o (scriptConfig u t) p
        = (.error "API key is required for DShield authentication", [])
    ∧ saGetTopAttackingIps o (scriptConfig u t) p
        = (.error "API key is required for DShield authentication", [])
    ∧ saGetDailySummary o sd ed (scriptConfig u t)
        = (.error "API key is required for DShield authentication", [])
    ∧ (pyStrip ipArg ≠ "" → validate_ip (pyStrip ipArg) = true →
        saLookupIp o (scriptConfig u t) ⟨some ipArg⟩
          = (.error "API key is required for DShield authentication", []))
    ∧ (scriptConfig u t).api_key = none
    ∧ scriptExitCode (saGetThreatFeeds o (scriptConfig u t) p).fst = 1 := by
  have hi := standaloneInit_script u t h
  refine ⟨?_, ?_, ?_, ?_, ?_, rfl, ?_⟩
  · simp [saGetThreatFeeds, hi]
  · simp [saGetTopPorts, hi]
  · simp [saGetTopAttackingIps, hi]
  · simp [saGetDailySummary, hi]
  · intro h1 h2
    simp [saLookupIp, h1, h2, hi]
  · simp [saGetThreatFeeds, hi, scriptExitCode]

/-- Witness for C10: under the default server URL of the scripts, both the
threat-feeds operation and a lookup of 8.8.8.8 fail with the API-key
message before any HTTP request. -/
theorem c10_standalone_scripts_amended_witness :
    saGetThreatFeeds (fun _ => .exn .connectionError)
        (scriptConfig "https://www.dshield.org" 30) ⟨none⟩
      = (.error "API key is required for DShield authentication", [])
    ∧ saLookupIp (fun _ => .exn .connectionError)
        (scriptConfig "https://www.dshield.org" 30) ⟨some "8.8.8.8"⟩
      = (.error "API key is required for DShield authentication", []) := by
  have h := c10_standalone_scripts_amended (fun _ => .exn .connectionError)
      "https://www.dshield.org" 30 ⟨none⟩ "2026-10-05" "2026-10-12" "8.8.8.8" (by decide)
  exact ⟨h.1, h.2.2.2.2.1 (by decide) (by decide)⟩

/-- An oracle under which the first two daily summary candidates raise a
connection failure and the third returns a truthy mapping containing an
error key. -/
def c4oracle : Oracle := fun url =>
  if url = "https://dshield.org/api/dailysummary/?json"
  then .resp 200 "x" (some (.obj [("error", .str "boom")]))
  else .exn .connectionError

/-- Counterexample for C4: all three candidate endpoints fail in the
sense of the claim (the first two raise, the third returns a mapping with an
error key), yet get_daily_summary does not raise the all-failed error; it
returns the error-carrying mapping augmented with _metadata, because the
fallback loop retains the last non-raising result and the post-loop check
only tests its truthiness. -/
theorem c4_counterexample :
    makeRestCall (c4oracle "https://dshield.org/api/dailysummary/2026-10-05/2026-10-12")
      = .error "Failed to connect to the server"
    ∧ makeRestCall (c4oracle "https://dshield.org/api/daily/?json")
      = .error "Failed to connect to the server"
    ∧ makeRestCall (c4oracle "https://dshield.org/api/dailysummary/?json")
      = .ok (.obj [("error", .str "boom")])
    ∧ hasKey (.obj [("error", .str "boom")]) "error" = true
    ∧ get_daily_summary c4oracle (fun _ => .error "unused") "2026-10-05" "2026-10-12"
        ⟨some "dshield.org", none, 30⟩
      = (.ok (.obj [("error", .str "boom"), ("_metadata", .obj metaDailyDict)]),
         ["https://dshield.org/api/dailysummary/2026-10-05/2026-10-12",
          "https://dshield.org/api/daily/?json",
          "https://dshield.org/api/dailysummary/?json"]) :=
  ⟨rfl, rfl, rfl, rfl, rfl⟩

/-- C4 amended: when every candidate endpoint call raises (so the loop
retains nothing), get_daily_summary raises the all-failed error after
requesting all three candidate URLs; when the last non-raising candidate
returns a truthy mapping carrying an error key, the operation instead
returns a mapping (see the counterexample). -/
theorem c4_daily_fallback_amended (o : Oracle) (px : String → Except String XmlElem)
    (sd ed : String) (cfg : Config) (base : String)
    (hb : dshieldInit cfg = .ok base)
    (hfail : ∀ ep ∈ dailyEndpoints sd ed, ∃ m, makeRestCall (o (base ++ ep)) = .error m) :
    get_daily_summary o px sd ed cfg
      = (.error "All daily summary endpoints failed or returned no data",
         (dailyEndpoints sd ed).map (fun ep => base ++ ep)) := by
  unfold get_daily_summary
  rw [hb]
  change dailyFinish px sd ed (dailyLoop o base (dailyEndpoints sd ed) none) = _
  rw [dailyLoop_allError o base _ none hfail]
  rfl

/-- Witness for C4 amended: with every request raising a connection
failure, the operation raises the all-failed message after trying the
three candidates. -/
theorem c4_daily_fallback_amended_witness :
    get_daily_summary (fun _ => .exn .connectionError) (fun _ => .error "unused2")
        "2026-10-05" "2026-10-12" ⟨some "dshield.org", none, 30⟩
      = (.error "All daily summary endpoints failed or returned no data",
         ["https://dshield.org/api/dailysummary/2026-10-05/2026-10-12",
          "https://dshield.org/api/daily/?json",
          "https://dshield.org/api/dailysummary/?json"]) := by
  have h := c4_daily_fallback_amended (fun _ => .exn .connectionError) (fun _ => .error "unused2")
      "2026-10-05" "2026-10-12" ⟨some "dshield.org", none, 30⟩ "https://dshield.org/api" rfl
      (by intro ep _; exact ⟨"Failed to connect to the server", rfl⟩)
  exact h

/-- An oracle whose every response is an XML body, exercising the XML
branch of the daily summary. -/
def c5oracle : Oracle := fun _ => .resp 200 "<daily/>" none

/-- A parsed document with two daily elements, records 10 and 20. -/
def c5root : XmlElem :=
  .node "dshield" none
    [.node "daily" none
       [.node "date" (some "2026-10-06") [], .node "records" (some "10") [],
        .node "sources" (some "3") [], .node "targets" (some "4") []],
     .node "daily" none
       [.node "date" (some "2026-10-07") [], .node "records" (some "20") [],
        .node "sources" (some "5") [], .node "targets" (some "6") []]]

/-- The ET.fromstring model returning the two-entry document. -/
def c5px : String → Except String XmlElem := fun _ => .ok c5root

/-- A parsed document with one daily element whose records child is
present but has no text. -/
def c5badRoot : XmlElem :=
  .node "dshield" none [.node "daily" none [.node "records" none []]]

/-- The ET.fromstring model returning the empty-records document. -/
def c5badPx : String → Except String XmlElem := fun _ => .ok c5badRoot

/-- Counterexample for C5: a daily element whose records child is present
with missing text does not yield records equal to 0; the extraction
raises (None.isdigit() is an AttributeError, re-raised by the outer
handler as a DShieldError), while the reading of the claim itself (second
conjunct) expects the 0 default for that entry. -/
theorem c5_counterexample :
    get_daily_summary c5oracle c5badPx "2026-10-05" "2026-10-12" ⟨some "dshield.org", none, 30⟩
      = (.error ("Failed to retrieve daily summary: " ++ attrErrMsg),
         ["https://dshield.org/api/dailysummary/2026-10-05/2026-10-12"])
    ∧ specFieldVal (XmlElem.node "daily" none [XmlElem.node "records" none []]) "records" = 0 :=
  ⟨rfl, rfl⟩

/-- C5 amended: when the first candidate endpoint yields an XML-classified
result and the numeric children of every daily element, where present, carry a
text, the operation returns the parsed envelope whose entries follow the
extraction of the claim (0 whenever the child is absent or its text is present
but not all digits) and whose summary totals are the arithmetic sums of
the corresponding fields over all parsed entries; a numeric child present
with no text instead raises (see the counterexample). -/
theorem c5_xml_parsing_amended (o : Oracle) (px : String → Except String XmlElem)
    (sd ed : String) (cfg : Config) (base content : String) (root : XmlElem)
    (hb : dshieldInit cfg = .ok base)
    (hr : makeRestCall (o (base ++ ("/dailysummary/" ++ sd ++ "/" ++ ed)))
      = .ok (.obj [("raw_response", .str content), ("content_type", .str "xml")]))
    (hp : px content = .ok root)
    (hsafe : dailySafe root = true) :
    get_daily_summary o px sd ed cfg
      = (.ok (xmlParsedResult sd ed ((findall root "daily").map specExtractDaily)),
         [base ++ ("/dailysummary/" ++ sd ++ "/" ++ ed)])
    ∧ xmlParsedResult sd ed ((findall root "daily").map specExtractDaily)
      = .obj [
          ("daily_summaries", .arr (((findall root "daily").map specExtractDaily).map entryToJVal)),
          ("summary_totals", .obj [
            ("total_records", .num (sumRecords ((findall root "daily").map specExtractDaily))),
            ("total_sources", .num (sumSources ((findall root "daily").map specExtractDaily))),
            ("total_targets", .num (sumTargets ((findall root "daily").map specExtractDaily))),
            ("date_range", .str (sd ++ " to " ++ ed))]),
          ("summary_type", .str "Parsed XML"),
          ("_metadata", .obj [
            ("source", .str "DShield"),
            ("connector_version", .str "1.1.0"),
            ("endpoint", .str "dailysummary"),
            ("note", .str "Parsed XML format daily summary data"),
            ("raw_xml_available", .bool true)])] := by
  refine ⟨?_, rfl⟩
  have hextract := extractAll_safe (findall root "daily") (by
    unfold dailySafe at hsafe
    exact hsafe)
  unfold get_daily_summary
  rw [hb]
  change dailyFinish px sd ed (dailyLoop o base (dailyEndpoints sd ed) none) = _
  have hloop : dailyLoop o base (dailyEndpoints sd ed) none
      = (some (.obj [("raw_response", .str content), ("content_type", .str "xml")]),
         [base ++ ("/dailysummary/" ++ sd ++ "/" ++ ed)]) := by
    simp [dailyLoop, dailyEndpoints, hr, JVal.truthy, hasKey, lookupKey]
  rw [hloop]
  simp [dailyFinish, JVal.truthy, emptyRespCheck, lookupKey, rawResponseOf, hp, hextract]

/-- Witness for C5 amended: two daily elements with records 10 and 20
parse into two entries and total_records 30. -/
theorem c5_xml_parsing_amended_witness :
    get_daily_summary c5oracle c5px "2026-10-05" "2026-10-12" ⟨some "dshield.org", none, 30⟩
      = (.ok (xmlParsedResult "2026-10-05" "2026-10-12"
            ((findall c5root "daily").map specExtractDaily)),
         ["https://dshield.org/api/dailysummary/2026-10-05/2026-10-12"])
    ∧ sumRecords ((findall c5root "daily").map specExtractDaily) = 30
    ∧ ((findall c5root "daily").map specExtractDaily).length = 2 := by
  have h := c5_xml_parsing_amended c5oracle c5px "2026-10-05" "2026-10-12"
      ⟨some "dshield.org", none, 30⟩ "https://dshield.org/api" "<daily/>" c5root rfl rfl rfl rfl
  exact ⟨h.1, by decide, by decide⟩

theorem metaOk_of_pair (X v : JVal) (a log : List String)
    (h : ((Except.ok X : Except String JVal), a) = (Except.ok v, log)) (hX : metaOk X = true) :
    metaOk v = true := by
  have hxv : X = v := by
    have h1 := congrArg Prod.fst h
    simpa using h1
  rw [← hxv]
  exact hX

theorem metaOk_dailyFinish (px : String → Except String XmlElem) (sd ed : String)
    (r : Option JVal × List String) (v : JVal) (log : List String)
    (h : dailyFinish px sd ed r = (.ok v, log)) : metaOk v = true := by
  obtain ⟨acc, lg⟩ := r
  cases acc with
  | none => simp [dailyFinish] at h
  | some w =>
    simp only [dailyFinish] at h
    split at h
    · simp at h
    · split at h
      · simp at h
      · exact metaOk_of_pair _ _ _ _ h rfl
      · split at h
        · split at h
          · exact metaOk_of_pair _ _ _ _ h rfl
          · split at h
            · simp at h
            · exact metaOk_of_pair _ _ _ _ h rfl
        · simp at h
        · exact metaOk_of_pair _ _ _ _ h (metaOk_dailyWrap w)

theorem metaOk_saDaily (o : Oracle) (sd ed : String) (cfg : Config) (v : JVal) (log : List String)
    (h : saGetDailySummary o sd ed cfg = (.ok v, log)) : metaOk v = true := by
  simp only [saGetDailySummary] at h
  split at h
  · simp at h
  · split at h
    · simp at h
    · split at h
      · simp at h
      · exact metaOk_of_pair _ _ _ _ h rfl
      · split at h
        · exact metaOk_of_pair _ _ _ _ h rfl
        · exact metaOk_of_pair _ _ _ _ h (metaOk_attachMetaIfObj metaDailyDict rfl rfl _)

/-- C1: for every configuration, parameter set and transport behavior on
which an operation of the five-name registry (lookup_ip,
get_threat_feeds, get_top_ports, get_daily_summary,
get_top_attacking_ips; both the dshield_lib.py registry and its
standalone_operations.py counterpart) returns successfully with a
mapping, the mapping carries a _metadata entry with source DShield and
connector_version 1.1.0. -/
theorem c1_metadata_envelope (o : Oracle) (cfg : Config) (p : Params) :
    (∀ v log, lookup_ip o cfg p = (.ok v, log) → metaOk v = true)
    ∧ (∀ v log, get_threat_feeds o cfg p = (.ok v, log) → metaOk v = true)
    ∧ (∀ v log, get_top_ports o cfg p = (.ok v, log) → metaOk v = true)
    ∧ (∀ v log, get_top_attacking_ips o cfg p = (.ok v, log) → metaOk v = true)
    ∧ (∀ px sd ed v log, get_daily_summary o px sd ed cfg = (.ok v, log) → metaOk v = true)
    ∧ (∀ v log, saLookupIp o cfg p = (.ok v, log) → metaOk v = true)
    ∧ (∀ v log, saGetThreatFeeds o cfg p = (.ok v, log) → metaOk v = true)
    ∧ (∀ v log, saGetTopPorts o cfg p = (.ok v, log) → metaOk v = true)
    ∧ (∀ v log, saGetTopAttackingIps o cfg p = (.ok v, log) → metaOk v = true)
    ∧ (∀ sd ed v log, saGetDailySummary o sd ed cfg = (.ok v, log) → metaOk v = true) := by
  refine ⟨?_, ?_, ?_, ?_, ?_, ?_, ?_, ?_, ?_, ?_⟩
  · intro v log h
    simp only [lookup_ip] at h
    split at h
    · simp at h
    · split at h
      · simp at h
      · split at h
        · simp at h
        · refine opCall_ok_metaOk _ _ _ ?_ v log h
          exact metaOk_attachMetaIfObj _ rfl rfl
  · intro v log h
    simp only [get_threat_feeds] at h
    split at h
    · simp at h
    · exact opCall_ok_metaOk _ _ _ metaOk_feedsPost v log h
  · intro v log h
    simp only [get_top_ports] at h
    split at h
    · simp at h
    · exact opCall_ok_metaOk _ _ _ (metaOk_attachMetaIfObj metaBase rfl rfl) v log h
  · intro v log h
    simp only [get_top_attacking_ips] at h
    split at h
    · simp at h
    · exact opCall_ok_metaOk _ _ _ (metaOk_attachMetaIfObj metaBase rfl rfl) v log h
  · intro px sd ed v log h
    simp only [get_daily_summary] at h
    split at h
    · simp at h
    · exact metaOk_dailyFinish px sd ed _ v log h
  · intro v log h
    simp only [saLookupIp] at h
    split at h
    · simp at h
    · split at h
      · simp at h
      · split at h
        · simp at h
        · refine opCall_ok_metaOk _ _ _ ?_ v log h
          exact metaOk_attachMetaIfObj _ rfl rfl
  · intro v log h
    simp only [saGetThreatFeeds] at h
    split at h
    · simp at h
    · exact opCall_ok_metaOk _ _ _ metaOk_feedsPost v log h
  · intro v log h
    simp only [saGetTopPorts] at h
    split at h
    · simp at h
    · exact opCall_ok_metaOk _ _ _ (metaOk_attachMetaIfObj metaBase rfl rfl) v log h
  · intro v log h
    simp only [saGetTopAttackingIps] at h
    split at h
    · simp at h
    · exact opCall_ok_metaOk _ _ _ (metaOk_attachMetaIfObj metaBase rfl rfl) v log h
  · intro sd ed v log h
    exact metaOk_saDaily o sd ed cfg v log h

/-- A transport whose single response decodes to an empty JSON object. -/
def c1oracle : Oracle := fun _ => .resp 200 "data" (some (.obj []))

/-- Witness for C1: a concrete successful lookup of 8.8.8.8 returns a
mapping satisfying the metadata envelope invariant. -/
theorem c1_metadata_envelope_witness :
    metaOk (JVal.obj [("_metadata", .obj (metaQ "8.8.8.8"))]) = true :=
  (c1_metadata_envelope c1oracle ⟨some "dshield.org", none, 30⟩ ⟨some "8.8.8.8"⟩).1
    (JVal.obj [("_metadata", .obj (metaQ "8.8.8.8"))])
    ["https://dshield.org/api/ip/8.8.8.8?json"] rfl
